import Mathlib

set_option maxRecDepth 100000

/-!
Verification development for the "AI Business Assistant" Streamlit app
(`src/app.py`).  The chart-request interpretation pipeline, the fallback
response table, the chart constructors and the session chart state are
shallowly embedded below; Python strings are modelled as Lean `String`
with explicit ASCII versions of `lower`/`in`/`split`/`strip`/`replace`/
`startswith`, and Python numeric literals are modelled as exact decimal
rationals.
-/

/-- ASCII lowercase of one character, the behaviour of Python `str.lower`
on the ASCII texts used by the app. -/
def pyCharLower (c : Char) : Char :=
  if 'A' ≤ c ∧ c ≤ 'Z' then Char.ofNat (c.toNat + 32) else c

/-- Model of Python `str.lower` (ASCII). -/
def pyLower (s : String) : String :=
  String.mk (s.toList.map pyCharLower)

/-- Substring containment over character lists: `needle` occurs
contiguously in `haystack`.  Model of Python `needle in haystack`. -/
def containsSub (needle : List Char) : List Char → Bool
  | [] => needle.isEmpty
  | c :: rest => needle.isPrefixOf (c :: rest) || containsSub needle rest

/-- Model of Python `needle in haystack` on strings. -/
def pyContains (haystack needle : String) : Bool :=
  containsSub needle.toList haystack.toList

/-- Model of Python `s.startswith(pre)`. -/
def pyStartsWith (s pre : String) : Bool :=
  pre.toList.isPrefixOf s.toList

/-- Whitespace characters stripped by Python `str.strip` (the ones that
occur in the app's strings). -/
def isSpaceChar (c : Char) : Bool :=
  c = ' ' || c = '\t' || c = '\n' || c = '\r'

/-- Model of Python `s.strip()`. -/
def pyStrip (s : String) : String :=
  String.mk (((s.toList.dropWhile isSpaceChar).reverse.dropWhile isSpaceChar).reverse)

/-- Split a character list on a separator character; like Python
`str.split(sep)`, empty pieces are kept. -/
def splitListOnChar (sep : Char) : List Char → List (List Char)
  | [] => [[]]
  | c :: rest =>
    let r := splitListOnChar sep rest
    if c = sep then [] :: r
    else
      match r with
      | [] => [[c]]
      | piece :: pieces => (c :: piece) :: pieces

/-- Model of Python `s.split(sep)` for a one-character separator. -/
def pySplitChar (s : String) (sep : Char) : List String :=
  (splitListOnChar sep s.toList).map String.mk

/-- Fuel-indexed replacement of every occurrence of a non-empty pattern,
scanning left to right; fuel `= length of the text` suffices. -/
def replaceAllFuel (pat rep : List Char) : Nat → List Char → List Char
  | 0, s => s
  | _ + 1, [] => []
  | n + 1, c :: rest =>
    if pat ≠ [] && pat.isPrefixOf (c :: rest) then
      rep ++ replaceAllFuel pat rep n ((c :: rest).drop pat.length)
    else
      c :: replaceAllFuel pat rep n rest

/-- Model of Python `s.replace(pat, rep)` (all occurrences, left to
right, for a non-empty pattern). -/
def pyReplaceAll (s pat rep : String) : String :=
  String.mk (replaceAllFuel pat.toList rep.toList s.toList.length s.toList)

/-! ### Fallback response table (`get_fallback_response`, app.py 491–514) -/

/-- The literal `responses` dictionary of `get_fallback_response`, in its
Python insertion order (Python dicts iterate in insertion order). -/
def fallbackResponses : List (String × String) :=
  [("cash flow", "📊 Your cash flow is healthy! Current month shows RM 42,000 net profit. Based on trends, I predict next month you\x27ll have RM 45,000 excess cash. Recommendation: Consider investing in inventory or new equipment."),
   ("performance", "🚀 Excellent performance this month! Revenue up 10% to RM 130,000, expenses down to RM 88,000, resulting in 23% profit increase. Your profit margin improved to 32.3% - above industry average of 22%."),
   ("expenses", "💡 Top expense reduction opportunities: 1) Staff costs at RM 35,000 (40% of expenses) - consider productivity tools. 2) Marketing spend at RM 15,000 - analyze ROI. 3) Utilities at RM 8,200 - energy audit recommended."),
   ("customers", "🎯 Customer profitability analysis: ABC Trading (RM 45k, 35% margin) and XYZ Manufacturing (RM 38k, 28% margin) are your top revenue generators. They represent 64% of revenue. Recommendation: Develop 2-3 similar-sized clients to reduce concentration risk."),
   ("staff", "👥 Based on current workload and revenue growth, yes! Your revenue per employee calculation shows good productivity. Adding 1 sales person could increase revenue by RM 180k annually. ROI: 340%."),
   ("prediction", "🔮 Next month prediction: Revenue RM 132,000 (+2%), Expenses RM 87,500 (-1%), Net Profit RM 44,500 (+6%). Confidence: 87%. Key factors: Seasonal uptick + customer retention."),
   ("sst", "📋 SST Status: Next submission due 28 Feb 2025. Current quarter sales: RM 373,430. Estimated SST liability: RM 22,406. Recommendation: Set aside funds now to avoid cash flow issues."),
   ("e-invoice", "📧 E-Invoice Status: Setup pending. From August 2024, all B2B transactions require e-invoicing. I can help you prepare the integration. Estimated setup time: 2 weeks."),
   ("chart", "CHART_REQUEST:line|revenue_trend|Monthly revenue and profit trends"),
   ("profit margin", "CHART_REQUEST:line|profit_margins|Monthly profit margin trends"),
   ("customer", "CHART_REQUEST:pie|customers|Customer revenue distribution"),
   ("expense", "CHART_REQUEST:pie|expenses|Operating expense breakdown"),
   ("region", "CHART_REQUEST:bar|regions|Regional revenue comparison")]

/-- The default response returned when no key matches
(app.py line 514). -/
def genericFallback : String :=
  "🤖 Great question! Based on your data: Revenue trending upward (+10%), expenses controlled (RM 88k), profit margin strong at 32.3%. Your business fundamentals look solid. What specific aspect would you like me to analyze?"

/-- The `for key, response in responses.items(): if key in question_lower`
loop of `get_fallback_response`: first key that is a substring of the
lowered question wins. -/
def lookupResponse (ql : String) : List (String × String) → Option String
  | [] => none
  | kv :: rest => if pyContains ql kv.1 then some kv.2 else lookupResponse ql rest

/-- `get_fallback_response` (app.py 491–514): `question_lower =
question.lower()`, then the first-match loop, then the default. -/
def get_fallback_response (question : String) : String :=
  match lookupResponse (pyLower question) fallbackResponses with
  | some r => r
  | none => genericFallback

/-! ### Chart request parsing (`parse_chart_request`, app.py 516–547) -/

/-- The `data_focus → chart type` mapping of `parse_chart_request`
(app.py 534–543): the if/elif chain, first match wins, tested on the
lowered `data_focus`. -/
def chart_type_of_focus (data_focus : String) : String :=
  if pyContains (pyLower data_focus) "profit_margin" || pyContains (pyLower data_focus) "margin" then
    "profit_margin"
  else if pyContains (pyLower data_focus) "customer" then "customer_pie"
  else if pyContains (pyLower data_focus) "expense" then "expense_pie"
  else if pyContains (pyLower data_focus) "region" then "regional_bar"
  else "revenue_trend"

/-- `parse_chart_request` (app.py 516–547).  The Python function returns
the tuple `(None, None, None)` when no line starts with
`CHART_REQUEST:`; that case is modelled as `none`.  The `try` body
contains no raising operation (guarded indexing, `replace`, `split`,
`strip`, `lower`), so the `except` branch (app.py 545–547) is dead and
the function is total. -/
def parse_chart_request (response : String) : Option (String × String × String) :=
  match (pySplitChar response '\n').find? (fun line => pyStartsWith line "CHART_REQUEST:") with
  | none => none
  | some chart_request_line =>
    let parts := pySplitChar (pyReplaceAll chart_request_line "CHART_REQUEST:" "") '|'
    let data_focus := if parts.length > 1 then pyStrip (parts.getD 1 "") else ""
    let description := if parts.length > 2 then pyStrip (parts.getD 2 "") else ""
    some (chart_type_of_focus data_focus, data_focus, description)

/-- End-to-end interpretation of a user text in demo mode: the fallback
response keyed by substring match, then chart-request parsing (the chat
handler, app.py 775–782). -/
def interpret_text (t : String) : Option (String × String × String) :=
  parse_chart_request (get_fallback_response t)

/-- The five chart identifiers known to `display_chart`. -/
def chart_type_ids : List String :=
  ["profit_margin", "customer_pie", "expense_pie", "regional_bar", "revenue_trend"]

/-! ### AI response (`get_ai_response`, app.py 406–489) -/

/-- The f-string prompt built around the user question (app.py 412–480);
indentation whitespace normalized, text otherwise as in the source. -/
def gemini_chart_context (question : String) : String :=
  "You are a Malaysian business intelligence assistant with ADVANCED CHARTING CAPABILITIES. You can create interactive charts for ANY business data automatically.\n\n" ++
  "CHART COMMAND: When users request ANY type of chart/graph/visualization, use this format:\n" ++
  "CHART_REQUEST:[chart_type]|[data_focus]|[description]\n\n" ++
  "Chart Types Available:\n- pie: For breakdowns, distributions, percentages\n- bar: For comparisons between categories\n- line: For trends over time\n- area: For cumulative trends, filled areas\n\n" ++
  "Data Categories You Can Chart:\n- CUSTOMERS: Revenue by customer, customer distribution\n- EXPENSES: Cost breakdown, expense categories\n- REVENUE: Monthly trends, sales over time\n- REGIONS: Geographic revenue distribution\n- PROFIT MARGINS: Profitability trends over time\n- Any other business metric requested\n\n" ++
  "COMPANY DATA AVAILABLE:\n\nFINANCIAL METRICS:\nMonthly Revenue: RM 130,000 (↑10.2%)\nOperating Expenses: RM 88,000 (↓3.3%)\nNet Profit: RM 42,000 (↑55.6%)\nProfit Margin: 32.3% (↑4.2%)\n\n" ++
  "CUSTOMER REVENUE:\n- ABC Trading Sdn Bhd: RM 45,000 (34.6%)\n- XYZ Manufacturing: RM 38,000 (29.2%)\n- DEF Industries: RM 25,000 (19.2%)\n- GHI Solutions: RM 17,430 (13.4%)\n- Others: RM 4,570 (3.5%)\n\n" ++
  "EXPENSE CATEGORIES:\n- Staff Costs: RM 35,000 (39.2%)\n- Marketing: RM 15,000 (16.8%)\n- Rent: RM 12,000 (13.5%)\n- Supplies: RM 11,000 (12.3%)\n- Utilities: RM 8,000 (9.0%)\n- Insurance: RM 7,000 (9.2%)\n\n" ++
  "REGIONAL REVENUE:\n- KL: RM 45,000\n- Selangor: RM 35,000\n- Penang: RM 25,000\n- Johor: RM 15,000\n- Others: RM 10,000\n\n" ++
  "MONTHLY TRENDS (Aug 2024 - Jan 2025):\nAug: Revenue RM95k, Expenses RM78k, Profit RM17k, Margin 17.9%\nSep: Revenue RM105k, Expenses RM82k, Profit RM23k, Margin 21.9%\nOct: Revenue RM98k, Expenses RM85k, Profit RM13k, Margin 13.3%\nNov: Revenue RM125k, Expenses RM89k, Profit RM36k, Margin 28.9%\nDec: Revenue RM118k, Expenses RM91k, Profit RM27k, Margin 22.9%\nJan: Revenue RM130k, Expenses RM88k, Profit RM42k, Margin 32.3%\n\n" ++
  "USER REQUEST: " ++ question ++ "\n\n" ++
  "EXAMPLES OF WHAT YOU CAN CHART:\n- \"Show regional sales\" → CHART_REQUEST:bar|regions|Regional revenue comparison\n- \"Profit margin trends\" → CHART_REQUEST:line|profit_margins|Monthly profit margin trends\n- \"Customer pie chart\" → CHART_REQUEST:pie|customers|Customer revenue distribution\n- \"Expense breakdown\" → CHART_REQUEST:pie|expenses|Operating expense categories\n- \"Monthly revenue trends\" → CHART_REQUEST:line|revenue_trend|Revenue and expense trends\n\n" ++
  "CRITICAL: Always include the CHART_REQUEST if they want ANY visualization, then provide analysis!"

/-- `get_ai_response` (app.py 406–489).  The optional Gemini model is a
fallible text-generation collaborator: `none` models an absent model,
and a call result `Except.error e` models `generate_content` raising.
A raised error is caught (`st.error` shown) and replaced by the local
fallback; an absent model goes to the fallback directly. -/
def get_ai_response (gemini_model : Option (String → Except String String))
    (question : String) : String :=
  match gemini_model with
  | some m =>
    match m (gemini_chart_context question) with
    | Except.ok t => "🤖 " ++ t
    | Except.error _ => get_fallback_response question
  | none => get_fallback_response question

/-! ### Firebase persistence (`save_to_firebase` / `load_from_firebase`,
app.py 167–192) -/

/-- External document store handle: `setDoc` models
`db.collection(c).document(d).set(data)` (may raise), `getDoc` models
`doc_ref.get()` followed by the `doc.exists` test — `Except.error e` is
a raised exception, `Except.ok none` a missing document, `Except.ok
(some v)` an existing document's `to_dict()`. -/
structure Database (α : Type) where
  setDoc : String → String → α → Except String Unit
  getDoc : String → String → Except String (Option α)

/-- `save_to_firebase` (app.py 167–177): `db` falsy → `False`; a raised
store error is caught (`st.error`) and `False` returned. -/
def save_to_firebase {α : Type} (db : Option (Database α))
    (collection_name document_id : String) (data : α) : Bool :=
  match db with
  | none => false
  | some d =>
    match d.setDoc collection_name document_id data with
    | Except.ok _ => true
    | Except.error _ => false

/-- `load_from_firebase` (app.py 179–192): `db` falsy → `None`; a raised
store error is caught (`st.error`) and `None` returned; a missing
document also yields `None`. -/
def load_from_firebase {α : Type} (db : Option (Database α))
    (collection_name document_id : String) : Option α :=
  match db with
  | none => none
  | some d =>
    match d.getDoc collection_name document_id with
    | Except.ok r => r
    | Except.error _ => none

/-! ### Business data catalog (session init, app.py 206–238) -/

/-- One customer record of `business_data.customers`. -/
structure Customer where
  name : String
  revenue : ℚ
  margin : ℚ
  region : String
deriving DecidableEq

/-- The `st.session_state.business_data` record.  Python floats are
modelled as exact decimal rationals; the `expenses_breakdown` and
`compliance` dictionaries as insertion-ordered association lists. -/
structure BusinessData where
  revenue : List ℚ
  expenses : List ℚ
  months : List String
  customers : List Customer
  expenses_breakdown : List (String × ℚ)
  compliance : List (String × String)
deriving DecidableEq

/-- The sample Malaysian SME data the session is initialized with when
nothing is loaded from Firebase (app.py 214–238). -/
def defaultBusinessData : BusinessData :=
  { revenue := [95000, 105000, 98000, 125430, 118000, 130000]
    expenses := [78000, 82000, 85000, 89200, 91000, 88000]
    months := ["Aug 2024", "Sep 2024", "Oct 2024", "Nov 2024", "Dec 2024", "Jan 2025"]
    customers :=
      [{ name := "ABC Trading Sdn Bhd", revenue := 45000, margin := 35, region := "KL" },
       { name := "XYZ Manufacturing", revenue := 38000, margin := 28, region := "Selangor" },
       { name := "DEF Industries", revenue := 25000, margin := 42, region := "Penang" },
       { name := "GHI Solutions", revenue := 17430, margin := 31, region := "Johor" }]
    expenses_breakdown :=
      [("Staff Costs", 35000), ("Rent", 12000), ("Utilities", 8200), ("Marketing", 15000),
       ("Supplies", 11000), ("Insurance", 5000), ("Others", 3000)]
    compliance :=
      [("sst_due", "2025-02-28"), ("e_invoice_status", "Pending Setup"),
       ("last_submission", "2024-12-31")] }

/-! ### Chart constructors (app.py 248–369).  A plotly figure is
modelled by its data traces, title and height; purely stylistic
attributes (colors, line widths, templates, axis captions) are
presentation detail and omitted. -/

/-- One plotly data trace. -/
inductive PlotTrace where
  | scatter (name : String) (x : List String) (y : List ℚ)
  | pie (labels : List String) (values : List ℚ)
  | bar (x : List String) (y : List ℚ)
deriving DecidableEq

/-- A plotly figure: its series data, title and height. -/
structure Figure where
  traces : List PlotTrace
  title : String
  height : ℚ
deriving DecidableEq

/-- `create_profit_margin_chart` (app.py 248–272): series from local
literal constants; the session `business_data` is passed explicitly here
to make the (non-)dependence on it provable, the source never reads
it. -/
def create_profit_margin_chart (_bd : BusinessData) : Figure :=
  { traces :=
      [PlotTrace.scatter "Profit Margin (%)"
        ["Aug 2024", "Sep 2024", "Oct 2024", "Nov 2024", "Dec 2024", "Jan 2025"]
        [17.9, 21.9, 13.3, 28.8, 22.9, 32.3]]
    title := "📈 Monthly Profit Margin Trends (Aug 2024 - Jan 2025)"
    height := 450 }

/-- `create_customer_pie_chart` (app.py 274–296): literal labels and
values, session data unread. -/
def create_customer_pie_chart (_bd : BusinessData) : Figure :=
  { traces :=
      [PlotTrace.pie
        ["ABC Trading Sdn Bhd", "XYZ Manufacturing", "DEF Industries", "GHI Solutions", "Others"]
        [45000, 38000, 25000, 17430, 4570]]
    title := "💼 Customer Revenue Distribution"
    height := 500 }

/-- `create_expense_pie_chart` (app.py 298–321): the only constructor
that reads `st.session_state.business_data` (its
`expenses_breakdown`). -/
def create_expense_pie_chart (bd : BusinessData) : Figure :=
  { traces :=
      [PlotTrace.pie (bd.expenses_breakdown.map Prod.fst)
        (bd.expenses_breakdown.map Prod.snd)]
    title := "💸 Operating Expense Breakdown"
    height := 500 }

/-- `create_regional_bar_chart` (app.py 323–343): literal regions and
revenue, session data unread. -/
def create_regional_bar_chart (_bd : BusinessData) : Figure :=
  { traces :=
      [PlotTrace.bar ["KL", "Selangor", "Penang", "Johor", "Others"]
        [45000, 35000, 25000, 15000, 10000]]
    title := "🗺️ Revenue by Region"
    height := 450 }

/-- `create_revenue_trend_chart` (app.py 345–369): literal month,
revenue, expense and profit lists, session data unread (note Nov 2024
revenue `125000` and expenses `89000` here, versus `125430` and `89200`
in `defaultBusinessData`). -/
def create_revenue_trend_chart (_bd : BusinessData) : Figure :=
  { traces :=
      [PlotTrace.scatter "Revenue"
        ["Aug 2024", "Sep 2024", "Oct 2024", "Nov 2024", "Dec 2024", "Jan 2025"]
        [95000, 105000, 98000, 125000, 118000, 130000],
       PlotTrace.scatter "Expenses"
        ["Aug 2024", "Sep 2024", "Oct 2024", "Nov 2024", "Dec 2024", "Jan 2025"]
        [78000, 82000, 85000, 89000, 91000, 88000],
       PlotTrace.scatter "Profit"
        ["Aug 2024", "Sep 2024", "Oct 2024", "Nov 2024", "Dec 2024", "Jan 2025"]
        [17000, 23000, 13000, 36000, 27000, 42000]]
    title := "📈 Revenue, Expenses & Profit Trends (Aug 2024 - Jan 2025)"
    height := 450 }

/-! ### `display_chart` and session chart state (app.py 240–245,
371–403, 743–747) -/

/-- Session state slice relevant to charting: the two chart-state
fields (app.py 240–245) plus the business data catalog. -/
structure SessionState where
  current_chart_type : Option String
  chart_timestamp : Option Nat
  business_data : BusinessData

/-- The session state at session start when Firebase supplies nothing:
no active chart, sample data (app.py 206–245). -/
def initState : SessionState :=
  { current_chart_type := none, chart_timestamp := none,
    business_data := defaultBusinessData }

/-- The `chart_functions` dictionary of `display_chart` (app.py
376–382). -/
def chart_functions : List (String × (BusinessData → Figure)) :=
  [("profit_margin", create_profit_margin_chart),
   ("customer_pie", create_customer_pie_chart),
   ("expense_pie", create_expense_pie_chart),
   ("regional_bar", create_regional_bar_chart),
   ("revenue_trend", create_revenue_trend_chart)]

/-- The `success_messages` dictionary of `display_chart` (app.py
389–395). -/
def success_messages : List (String × String) :=
  [("profit_margin", "✅ Profit margin chart created! Shows improvement from 17.9% to 32.3%"),
   ("customer_pie", "✅ Customer pie chart created! ABC Trading leads with 34.6% of revenue."),
   ("expense_pie", "✅ Expense breakdown chart created! Staff costs are the largest expense at 39.2%."),
   ("regional_bar", "✅ Regional bar chart created! KL leads with RM 45,000 revenue."),
   ("revenue_trend", "✅ Multi-line trend chart created! Shows revenue growth and profit improvement.")]

/-- Python `dict.get(key, default)` over an association list. -/
def lookupD (l : List (String × String)) (k d : String) : String :=
  match l.find? (fun kv => kv.1 == k) with
  | some kv => kv.2
  | none => d

/-- What one `display_chart` call shows: the rendered figure and its
widget key, the success message, and the optional info banner.  All
`none` when the chart type is unknown (nothing is displayed). -/
structure DisplayOutput where
  figure : Option Figure
  widget_key : Option String
  message : Option String
  info_banner : Option String
deriving DecidableEq

/-- `display_chart` (app.py 371–403): unconditionally records the
requested type and a fresh timestamp in the session state (app.py
373–374) before checking the type against `chart_functions`; on a known
type it renders the figure from the session's business data, keyed by
type and timestamp, shows the success message
(`success_messages.get(type, default)`) and, when `chart_info` is
non-empty, the info banner.  The chart constructors are total, so the
`try/except` around them (app.py 385–403) never fires in this model.
`now` is the `int(time.time())` value. -/
def display_chart (chart_type chart_info : String) (now : Nat)
    (s : SessionState) : SessionState × DisplayOutput :=
  let s' := { s with current_chart_type := some chart_type, chart_timestamp := some now }
  match chart_functions.find? (fun kv => kv.1 == chart_type) with
  | some kv =>
    (s',
     { figure := some (kv.2 s.business_data)
       widget_key := some (chart_type ++ "_" ++ toString now)
       message := some (lookupD success_messages chart_type "✅ Chart created successfully!")
       info_banner := if chart_info == "" then none else some chart_info })
  | none =>
    (s', { figure := none, widget_key := none, message := none, info_banner := none })

/-- Session-level chart actions: a `display_chart` call (from the chat
handler or the Create Chart button) or the Clear Charts button (app.py
743–747). -/
inductive ChartAction where
  | display (chart_type : String) (info : String) (now : Nat)
  | clear

/-- One session transition. -/
def session_step (s : SessionState) : ChartAction → SessionState
  | ChartAction.display ct info now => (display_chart ct info now s).1
  | ChartAction.clear => { s with current_chart_type := none, chart_timestamp := none }

/-- Run a sequence of chart actions from a state. -/
def run_actions (s : SessionState) (acts : List ChartAction) : SessionState :=
  acts.foldl session_step s

/-- The two legal chart states: no-active-chart (both fields `None`) or
chart-active (both set). -/
def chart_state_ok (s : SessionState) : Prop :=
  (s.current_chart_type = none ∧ s.chart_timestamp = none) ∨
  (∃ ct ts, s.current_chart_type = some ct ∧ s.chart_timestamp = some ts)

/-! ### Modification requests and spec resolution (spec §4.1 step 1 and
§4.2).  The modification / secondary-axis machinery belongs to richer
iterations of the interpreter that are not present in `src/`; it is
modelled from the spec below. -/

/-- Modelled from the spec: the `modification_type` of §4.1 step 1. -/
inductive ModificationType where
  | add_secondary_axis
  | add_metric
deriving DecidableEq

/-- Modelled from the spec: the ChartSpec value object of §3. -/
structure ChartSpec where
  data_source : String
  x_axis : String
  y_axis : List String
  chart_type : String
  time_filter : List String
  comparison_set : List String
  secondary_axis : List String
  is_modification : Bool
  modification_type : Option ModificationType
deriving DecidableEq

/-- Modelled from the spec: the fixed modification cue phrases of §4.1
step 1. -/
def modification_cues : List String :=
  ["also", "add", "include", "plus", "with", "and also", "can you also"]

/-- Modelled from the spec: `classify(text, priorExists)` (§4.1),
restricted to the modification axis (step 1) — the part of the
classifier not present in `src/` that claim C5 exercises.  When a
modification cue is found, the metric checks run in the stated order
(margin → secondary axis; else profit; else revenue; else expense), and
steps 2–4 are skipped: the data-source / axis fields carry their
documented defaults, which the resolver ignores because it reuses the
prior spec's fields verbatim.  `is_modification` depends only on lexical
cues in `text`, never on `priorExists` (spec §4.1 contract), so the
second argument is unused. -/
def classify (text : String) (_priorExists : Bool) : ChartSpec :=
  let tl := pyLower text
  if modification_cues.any (fun c => pyContains tl c) then
    if pyContains tl "profit margin" || pyContains tl "margin" then
      { data_source := "monthly_data", x_axis := "months", y_axis := [],
        chart_type := "line", time_filter := [], comparison_set := [],
        secondary_axis := ["profit_margin"], is_modification := true,
        modification_type := some ModificationType.add_secondary_axis }
    else if pyContains tl "profit" then
      { data_source := "monthly_data", x_axis := "months", y_axis := ["profit"],
        chart_type := "line", time_filter := [], comparison_set := [],
        secondary_axis := [], is_modification := true,
        modification_type := some ModificationType.add_metric }
    else if pyContains tl "revenue" then
      { data_source := "monthly_data", x_axis := "months", y_axis := ["revenue"],
        chart_type := "line", time_filter := [], comparison_set := [],
        secondary_axis := [], is_modification := true,
        modification_type := some ModificationType.add_metric }
    else if pyContains tl "expense" then
      { data_source := "monthly_data", x_axis := "months", y_axis := ["expenses"],
        chart_type := "line", time_filter := [], comparison_set := [],
        secondary_axis := [], is_modification := true,
        modification_type := some ModificationType.add_metric }
    else
      { data_source := "monthly_data", x_axis := "months", y_axis := ["revenue"],
        chart_type := "line", time_filter := [], comparison_set := [],
        secondary_axis := [], is_modification := true,
        modification_type := none }
  else
    { data_source := "monthly_data", x_axis := "months", y_axis := ["revenue"],
      chart_type := "line", time_filter := [], comparison_set := [],
      secondary_axis := [], is_modification := false,
      modification_type := none }

/-- Deduplicated union preserving insertion order of first occurrence
(spec §4.2, `add_metric`). -/
def dedupUnion (a b : List String) : List String :=
  (a ++ b).foldl (fun acc x => if x ∈ acc then acc else acc ++ [x]) []

/-- Modelled from the spec: `resolve(newSpec, previous)` (§4.2) — the
spec resolver / modifier, not present in `src/`.  A non-modification or
a missing previous spec yields `newSpec` unchanged; `add_secondary_axis`
patches the previous spec's secondary axis and forces `chart_type =
line`; `add_metric` unions the metrics; a modification with no
recognized metric (left open by the spec) leaves the previous spec
unchanged. -/
def resolve (newSpec : ChartSpec) (previous : Option ChartSpec) : ChartSpec :=
  match previous with
  | none => newSpec
  | some prev =>
    if newSpec.is_modification then
      match newSpec.modification_type with
      | some ModificationType.add_secondary_axis =>
        { prev with secondary_axis := newSpec.secondary_axis, chart_type := "line" }
      | some ModificationType.add_metric =>
        { prev with y_axis := dedupUnion prev.y_axis newSpec.y_axis }
      | none => prev
    else newSpec

/-! ### Helper lemmas -/

/-- `containsSub` decides contiguous-sublist containment. -/
theorem containsSub_correct (n : List Char) (h : List Char) :
    containsSub n h = true ↔ n <:+: h := by
  induction h with
  | nil =>
    simp [containsSub, List.isEmpty_iff]
  | cons c rest ih =>
    simp [containsSub, Bool.or_eq_true, ih, List.infix_cons_iff]

/-- Substring containment is transitive through a larger needle: if `a`
occurs in `s` and `b` occurs contiguously inside `a`, then `b` occurs in
`s`. -/
theorem pyContains_trans {s a b : String} (h : pyContains s a = true)
    (hba : b.toList <:+: a.toList) : pyContains s b = true := by
  unfold pyContains at h ⊢
  rw [containsSub_correct] at h ⊢
  exact hba.trans h

/-- First-match lookup: head key hits. -/
theorem lookupResponse_head (ql k v : String) (rest : List (String × String))
    (h : pyContains ql k = true) :
    lookupResponse ql ((k, v) :: rest) = some v := by
  simp [lookupResponse, h]

/-- First-match lookup: head key misses, lookup continues. -/
theorem lookupResponse_tail (ql k v : String) (rest : List (String × String))
    (h : pyContains ql k = false) :
    lookupResponse ql ((k, v) :: rest) = lookupResponse ql rest := by
  simp [lookupResponse, h]

/-- When every key misses, the lookup misses. -/
theorem lookupResponse_eq_none (ql : String) (l : List (String × String))
    (h : ∀ kv ∈ l, pyContains ql kv.1 = false) :
    lookupResponse ql l = none := by
  induction l with
  | nil => rfl
  | cons kv rest ih =>
    have h1 := h kv (List.mem_cons_self kv rest)
    have h2 : ∀ x ∈ rest, pyContains ql x.1 = false :=
      fun x hx => h x (List.mem_cons_of_mem kv hx)
    simp [lookupResponse, h1, ih h2]

/-- A successful lookup returns the value of some table entry. -/
theorem lookupResponse_mem (ql r : String) (l : List (String × String))
    (h : lookupResponse ql l = some r) : ∃ kv ∈ l, r = kv.2 := by
  induction l with
  | nil => cases h
  | cons kv rest ih =>
    by_cases hc : pyContains ql kv.1 = true
    · refine ⟨kv, List.mem_cons_self kv rest, ?_⟩
      simp [lookupResponse, hc] at h
      exact h.symm
    · have hc' : pyContains ql kv.1 = false := by
        cases hx : pyContains ql kv.1 with
        | false => rfl
        | true => exact absurd hx hc
      simp [lookupResponse, hc'] at h
      obtain ⟨kv', hm, he⟩ := ih h
      exact ⟨kv', List.mem_cons_of_mem kv hm, he⟩

/-- The `data_focus` mapping only ever produces the five known chart
identifiers. -/
theorem chart_type_of_focus_mem (df : String) :
    chart_type_of_focus df ∈ chart_type_ids := by
  unfold chart_type_of_focus chart_type_ids
  split
  · simp
  · split
    · simp
    · split
      · simp
      · split <;> simp

/-- `display_chart` always records the requested type and the fresh
timestamp in the session state, whatever the chart type. -/
theorem display_chart_state (ct info : String) (now : Nat) (s : SessionState) :
    (display_chart ct info now s).1
      = { s with current_chart_type := some ct, chart_timestamp := some now } := by
  unfold display_chart
  cases h : chart_functions.find? (fun kv => kv.1 == ct) <;> simp [h]

/-- Every session transition lands in one of the two legal chart
states. -/
theorem session_step_ok (s : SessionState) (a : ChartAction) :
    chart_state_ok (session_step s a) := by
  cases a with
  | display ct info now =>
    right
    refine ⟨ct, now, ?_, ?_⟩ <;> (simp only [session_step]; rw [display_chart_state])
  | clear => exact Or.inl ⟨rfl, rfl⟩

/-- Running any action sequence preserves the two-state discipline. -/
theorem run_actions_ok (acts : List ChartAction) (s : SessionState)
    (hs : chart_state_ok s) : chart_state_ok (run_actions s acts) := by
  induction acts generalizing s with
  | nil => exact hs
  | cons a rest ih => exact ih (session_step s a) (session_step_ok s a)

/-! ### Claim theorems -/

/-- The fallback keys tried before `"customer"` in
`get_fallback_response`'s dictionary order. -/
def keysBeforeCustomer : List String :=
  ["cash flow", "performance", "expenses", "customers", "staff", "prediction",
   "sst", "e-invoice", "chart", "profit margin"]

/-- C1 counterexample: the text `"customer revenue pie chart"` contains
both `"customer"` and `"pie"`, yet the end-to-end interpretation matches
the earlier fallback key `"chart"` and produces the `revenue_trend` line
chart, not the customer pie chart. -/
theorem C1_counterexample :
    pyContains (pyLower "customer revenue pie chart") "customer" = true
    ∧ pyContains (pyLower "customer revenue pie chart") "pie" = true
    ∧ interpret_text "customer revenue pie chart"
        = some ("revenue_trend", "revenue_trend", "Monthly revenue and profit trends")
    ∧ interpret_text "customer revenue pie chart"
        ≠ some ("customer_pie", "customers", "Customer revenue distribution") :=
  ⟨by decide, by decide, by decide, by decide⟩

/-- C1 (amended): for every user text containing `"customer"` and
`"pie"` (case-folded) that contains none of the fallback keys tried
before `"customer"` (`"cash flow"`, `"performance"`, `"expenses"`,
`"customers"`, `"staff"`, `"prediction"`, `"sst"`, `"e-invoice"`,
`"chart"`, `"profit margin"`), the end-to-end interpretation selects the
customers data source and the customer pie chart. -/
theorem C1_customer_pie_amended (t : String)
    (hcust : pyContains (pyLower t) "customer" = true)
    (_hpie : pyContains (pyLower t) "pie" = true)
    (hprior : ∀ k ∈ keysBeforeCustomer, pyContains (pyLower t) k = false) :
    interpret_text t = some ("customer_pie", "customers", "Customer revenue distribution") := by
  have h1 : pyContains (pyLower t) "cash flow" = false := hprior _ (by simp [keysBeforeCustomer])
  have h2 : pyContains (pyLower t) "performance" = false := hprior _ (by simp [keysBeforeCustomer])
  have h3 : pyContains (pyLower t) "expenses" = false := hprior _ (by simp [keysBeforeCustomer])
  have h4 : pyContains (pyLower t) "customers" = false := hprior _ (by simp [keysBeforeCustomer])
  have h5 : pyContains (pyLower t) "staff" = false := hprior _ (by simp [keysBeforeCustomer])
  have h6 : pyContains (pyLower t) "prediction" = false := hprior _ (by simp [keysBeforeCustomer])
  have h7 : pyContains (pyLower t) "sst" = false := hprior _ (by simp [keysBeforeCustomer])
  have h8 : pyContains (pyLower t) "e-invoice" = false := hprior _ (by simp [keysBeforeCustomer])
  have h9 : pyContains (pyLower t) "chart" = false := hprior _ (by simp [keysBeforeCustomer])
  have h10 : pyContains (pyLower t) "profit margin" = false := hprior _ (by simp [keysBeforeCustomer])
  have hresp : get_fallback_response t
      = "CHART_REQUEST:pie|customers|Customer revenue distribution" := by
    unfold get_fallback_response fallbackResponses
    rw [lookupResponse_tail _ _ _ _ h1, lookupResponse_tail _ _ _ _ h2,
        lookupResponse_tail _ _ _ _ h3, lookupResponse_tail _ _ _ _ h4,
        lookupResponse_tail _ _ _ _ h5, lookupResponse_tail _ _ _ _ h6,
        lookupResponse_tail _ _ _ _ h7, lookupResponse_tail _ _ _ _ h8,
        lookupResponse_tail _ _ _ _ h9, lookupResponse_tail _ _ _ _ h10,
        lookupResponse_head _ _ _ _ hcust]
  unfold interpret_text
  rw [hresp]
  decide

/-- C1 amended, witnessed at `"customer pie"`. -/
theorem C1_customer_pie_amended_witness :
    (pyContains (pyLower "customer pie") "customer" = true
      ∧ pyContains (pyLower "customer pie") "pie" = true
      ∧ (∀ k ∈ keysBeforeCustomer, pyContains (pyLower "customer pie") k = false))
    ∧ interpret_text "customer pie"
        = some ("customer_pie", "customers", "Customer revenue distribution") :=
  ⟨⟨by decide, by decide, by decide⟩,
   C1_customer_pie_amended "customer pie" (by decide) (by decide) (by decide)⟩

/-- C2 counterexample: the empty text contains no recognized keyword,
and the interpretation produces no chart at all (the generic fallback
text carries no `CHART_REQUEST` line, so `parse_chart_request` returns
the null triple) — not a monthly-data revenue line chart. -/
theorem C2_counterexample :
    (∀ kv ∈ fallbackResponses, pyContains (pyLower "") kv.1 = false)
    ∧ get_fallback_response "" = genericFallback
    ∧ interpret_text "" = none :=
  ⟨by decide, by decide, by decide⟩

/-- C2 (amended): for every user text containing none of the recognized
fallback keywords (including empty text), `get_fallback_response`
returns the generic advisory text, which contains no `CHART_REQUEST`
line, so the chart interpretation yields no chart at all (`None`);
no monthly-data revenue line chart is produced on this path. -/
theorem C2_no_keyword_no_chart (t : String)
    (h : ∀ kv ∈ fallbackResponses, pyContains (pyLower t) kv.1 = false) :
    get_fallback_response t = genericFallback ∧ interpret_text t = none := by
  have hl : lookupResponse (pyLower t) fallbackResponses = none :=
    lookupResponse_eq_none _ _ h
  have hresp : get_fallback_response t = genericFallback := by
    unfold get_fallback_response
    rw [hl]
  refine ⟨hresp, ?_⟩
  unfold interpret_text
  rw [hresp]
  decide

/-- C2 amended, witnessed at the empty text. -/
theorem C2_no_keyword_no_chart_witness :
    (∀ kv ∈ fallbackResponses, pyContains (pyLower "") kv.1 = false)
    ∧ (get_fallback_response "" = genericFallback ∧ interpret_text "" = none) :=
  ⟨by decide, C2_no_keyword_no_chart "" (by decide)⟩

/-- C3 counterexample: a chart request whose `data_focus` contains the
customer cue `"customer"` together with `"margin"` resolves to the
profit-margin chart, not the customers source — the `"margin"` rule is
evaluated before the `"customer"` rule and changes the data source, not
merely the y-axis metric. -/
theorem C3_counterexample :
    pyContains (pyLower "customer margin") "customer" = true
    ∧ parse_chart_request "CHART_REQUEST:pie|customer margin|margin by customer"
        = some ("profit_margin", "customer margin", "margin by customer")
    ∧ ("profit_margin" : String) ≠ "customer_pie" :=
  ⟨by decide, by decide, by decide⟩

/-- C3 (amended): data-source resolution evaluates its rules in the
fixed priority order margin > customer > expense > region > default,
first match wins, on the request's `data_focus` (the cue `"client"` is
not recognized): when `"margin"` is present the profit-margin chart is
selected regardless of `"customer"`, and the customers source is
selected for a `"customer"` cue only when `"margin"` is absent. -/
theorem C3_priority_amended (df : String) :
    (pyContains (pyLower df) "margin" = true →
      chart_type_of_focus df = "profit_margin")
    ∧ (pyContains (pyLower df) "margin" = false →
      pyContains (pyLower df) "customer" = true →
      chart_type_of_focus df = "customer_pie") := by
  constructor
  · intro h
    unfold chart_type_of_focus
    simp [h]
  · intro hm hc
    have hpm : pyContains (pyLower df) "profit_margin" = false := by
      cases hx : pyContains (pyLower df) "profit_margin" with
      | false => rfl
      | true =>
        have : pyContains (pyLower df) "margin" = true :=
          pyContains_trans hx (by decide)
        rw [this] at hm
        cases hm
    unfold chart_type_of_focus
    simp [hm, hpm, hc]

/-- C3 amended, witnessed at the data foci `"customers"` and
`"profit_margins"`. -/
theorem C3_priority_amended_witness :
    (pyContains (pyLower "customers") "margin" = false
      ∧ pyContains (pyLower "customers") "customer" = true
      ∧ chart_type_of_focus "customers" = "customer_pie")
    ∧ (pyContains (pyLower "profit_margins") "margin" = true
      ∧ chart_type_of_focus "profit_margins" = "profit_margin") :=
  ⟨⟨by decide, by decide, (C3_priority_amended "customers").2 (by decide) (by decide)⟩,
   ⟨by decide, (C3_priority_amended "profit_margins").1 (by decide)⟩⟩

/-- C4: classification is total: for every question the fallback returns
either the generic default or one of the fixed table responses, and for
every response string (however malformed its `CHART_REQUEST` payload)
the parser returns either the null triple or one of the five known chart
types — no input reaches an error. -/
theorem C4_classification_total (q resp : String) :
    (get_fallback_response q = genericFallback ∨
      ∃ kv ∈ fallbackResponses, get_fallback_response q = kv.2)
    ∧ (parse_chart_request resp = none ∨
      ∃ t df de, parse_chart_request resp = some (t, df, de) ∧ t ∈ chart_type_ids) := by
  constructor
  · unfold get_fallback_response
    cases h : lookupResponse (pyLower q) fallbackResponses with
    | none => exact Or.inl rfl
    | some r =>
      obtain ⟨kv, hm, he⟩ := lookupResponse_mem _ _ _ h
      exact Or.inr ⟨kv, hm, he⟩
  · unfold parse_chart_request
    cases h : (pySplitChar resp '\n').find? (fun line => pyStartsWith line "CHART_REQUEST:") with
    | none => exact Or.inl rfl
    | some line =>
      exact Or.inr ⟨_, _, _, rfl, chart_type_of_focus_mem _⟩

/-- C5 (spec-modelled): resolving the classification of
`"also include profit margin"` against any previous spec keeps the
previous `y_axis` unchanged, sets `secondary_axis = [profit_margin]`,
and forces `chart_type = line`. -/
theorem C5_modification_round_trip (prev : ChartSpec) :
    (resolve (classify "also include profit margin" true) (some prev)).y_axis = prev.y_axis
    ∧ (resolve (classify "also include profit margin" true) (some prev)).secondary_axis
        = ["profit_margin"]
    ∧ (resolve (classify "also include profit margin" true) (some prev)).chart_type = "line" := by
  have hc : classify "also include profit margin" true =
      { data_source := "monthly_data", x_axis := "months", y_axis := [],
        chart_type := "line", time_filter := [], comparison_set := [],
        secondary_axis := ["profit_margin"], is_modification := true,
        modification_type := some ModificationType.add_secondary_axis } := by decide
  rw [hc]
  exact ⟨rfl, rfl, rfl⟩

/-- C6: rendering the same chart type twice against the same session
(`display_chart` threads its state update through) produces the
identical figure (series data and title), the identical success
message, and the identical info banner — only the widget key, derived
from the timestamp, may differ. -/
theorem C6_display_chart_deterministic (ct info : String) (t₁ t₂ : Nat) (s : SessionState) :
    ((display_chart ct info t₂ (display_chart ct info t₁ s).1).2.figure
      = (display_chart ct info t₁ s).2.figure)
    ∧ ((display_chart ct info t₂ (display_chart ct info t₁ s).1).2.message
      = (display_chart ct info t₁ s).2.message)
    ∧ ((display_chart ct info t₂ (display_chart ct info t₁ s).1).2.info_banner
      = (display_chart ct info t₁ s).2.info_banner) := by
  unfold display_chart
  cases h : chart_functions.find? (fun kv => kv.1 == ct) <;> simp [h]

/-- C7: with the text-generation collaborator absent, or when its call
raises, `get_ai_response` returns exactly the local fixed-text fallback
for the question — the failure never escapes the turn handler. -/
theorem C7_ai_failure_falls_back (q : String)
    (g : Option (String → Except String String))
    (h : g = none ∨ ∃ m e, g = some m ∧ m (gemini_chart_context q) = Except.error e) :
    get_ai_response g q = get_fallback_response q := by
  rcases h with rfl | ⟨m, e, rfl, hm⟩
  · rfl
  · simp [get_ai_response, hm]

/-- C7 witnessed with an absent collaborator. -/
theorem C7_ai_failure_falls_back_witness :
    ((none : Option (String → Except String String)) = none
      ∨ ∃ m e, (none : Option (String → Except String String)) = some m
          ∧ m (gemini_chart_context "How is my cash flow?") = Except.error e)
    ∧ get_ai_response none "How is my cash flow?"
        = get_fallback_response "How is my cash flow?" :=
  ⟨Or.inl rfl, C7_ai_failure_falls_back "How is my cash flow?" none (Or.inl rfl)⟩

/-- C8: for every collection, document id and payload, when the
database handle is absent, or the store's set and get both raise,
`save_to_firebase` returns `False` and `load_from_firebase` returns
`None`; both are total functions, so no exception reaches the
caller. -/
theorem C8_persistence_degrades (α : Type) (c d : String) (x : α)
    (db : Option (Database α))
    (h : db = none ∨ ∃ B, db = some B
        ∧ (∃ e, B.setDoc c d x = Except.error e)
        ∧ (∃ e, B.getDoc c d = Except.error e)) :
    save_to_firebase db c d x = false ∧ load_from_firebase db c d = none := by
  rcases h with rfl | ⟨B, rfl, ⟨e₁, h₁⟩, ⟨e₂, h₂⟩⟩
  · exact ⟨rfl, rfl⟩
  · constructor
    · simp [save_to_firebase, h₁]
    · simp [load_from_firebase, h₂]

/-- C8 witnessed with an absent database handle. -/
theorem C8_persistence_degrades_witness :
    ((none : Option (Database Nat)) = none
      ∨ ∃ B, (none : Option (Database Nat)) = some B
          ∧ (∃ e, B.setDoc "chat_histories" "demo_user" 0 = Except.error e)
          ∧ (∃ e, B.getDoc "chat_histories" "demo_user" = Except.error e))
    ∧ (save_to_firebase (none : Option (Database Nat)) "chat_histories" "demo_user" 0 = false
      ∧ load_from_firebase (none : Option (Database Nat)) "chat_histories" "demo_user" = none) :=
  ⟨Or.inl rfl,
   C8_persistence_degrades Nat "chat_histories" "demo_user" 0 none (Or.inl rfl)⟩

/-- C9: the session chart state is a two-state machine: from the
initial no-active-chart state every action sequence stays in
\x7bno-active-chart, chart-active\x7d; a display action stores exactly
the requested type (and a timestamp), and the clear action resets both
fields to `None`. -/
theorem C9_session_two_state (acts : List ChartAction) (s : SessionState)
    (ct info : String) (now : Nat) :
    chart_state_ok (run_actions initState acts)
    ∧ (session_step s (ChartAction.display ct info now)).current_chart_type = some ct
    ∧ (session_step s (ChartAction.display ct info now)).chart_timestamp = some now
    ∧ (session_step s ChartAction.clear).current_chart_type = none
    ∧ (session_step s ChartAction.clear).chart_timestamp = none := by
  refine ⟨run_actions_ok acts initState (Or.inl ⟨rfl, rfl⟩), ?_, ?_, rfl, rfl⟩ <;>
    (simp only [session_step]; rw [display_chart_state])

/-- C10: four of the five chart constructors ignore the session catalog
entirely (their figures are equal across any two catalogs), only the
expense pie chart reads it, and the hardcoded Nov 2024 revenue-trend
values (125000 revenue, 89000 expenses) differ from the catalog's
(125430, 89200). -/
theorem C10_hardcoded_charts :
    (∀ d₁ d₂ : BusinessData,
      create_profit_margin_chart d₁ = create_profit_margin_chart d₂
      ∧ create_customer_pie_chart d₁ = create_customer_pie_chart d₂
      ∧ create_regional_bar_chart d₁ = create_regional_bar_chart d₂
      ∧ create_revenue_trend_chart d₁ = create_revenue_trend_chart d₂)
    ∧ create_expense_pie_chart defaultBusinessData
        ≠ create_expense_pie_chart
            { defaultBusinessData with expenses_breakdown := [("Staff Costs", 35000)] }
    ∧ (∀ d : BusinessData, (create_expense_pie_chart d).traces
        = [PlotTrace.pie (d.expenses_breakdown.map Prod.fst) (d.expenses_breakdown.map Prod.snd)])
    ∧ ((create_revenue_trend_chart defaultBusinessData).traces.getD 0 (PlotTrace.bar [] [])
        = PlotTrace.scatter "Revenue"
            ["Aug 2024", "Sep 2024", "Oct 2024", "Nov 2024", "Dec 2024", "Jan 2025"]
            [95000, 105000, 98000, 125000, 118000, 130000])
    ∧ (125000 : ℚ) ≠ defaultBusinessData.revenue.getD 3 0
    ∧ defaultBusinessData.revenue.getD 3 0 = 125430
    ∧ ((create_revenue_trend_chart defaultBusinessData).traces.getD 1 (PlotTrace.bar [] [])
        = PlotTrace.scatter "Expenses"
            ["Aug 2024", "Sep 2024", "Oct 2024", "Nov 2024", "Dec 2024", "Jan 2025"]
            [78000, 82000, 85000, 89000, 91000, 88000])
    ∧ (89000 : ℚ) ≠ defaultBusinessData.expenses.getD 3 0
    ∧ defaultBusinessData.expenses.getD 3 0 = 89200 := by
  refine ⟨fun d₁ d₂ => ⟨rfl, rfl, rfl, rfl⟩, by decide, fun d => rfl, rfl, by decide, rfl,
    rfl, by decide, rfl⟩
